import Mathlib

/-!
Verification of the CashFlow Story financial analytics engine.

The development shallowly embeds `backend/calculations.py` (scalar engine
`calculate_analytics`, vectorized batch engine `calculate_analytics_df`,
input validation `validate_financial_data`), the batch endpoint loop of
`backend/main.py` (`calculate_batch`), and the response model of
`backend/models.py` (`BatchAnalyticsResponse`).

Numeric conventions:
- Monetary quantities are rationals (`ℚ`); Python's `round(x, 2)` is embedded
  as `round2`, rounding half to even as Python's `round` does.
- The pandas path produces IEEE-style special values on division by zero, so
  its values live in `EF` (a rational extended with `inf`, `ninf`, `nan`);
  division by zero yields `inf`/`ninf`/`nan` by the sign of the numerator,
  exactly as float division does in numpy/pandas.
-/

/-- Round a rational to the nearest integer, ties to even (Python `round`). -/
def roundHalfEven (q : ℚ) : ℤ :=
  let f : ℤ := ⌊q⌋
  let r : ℚ := q - f
  if r < 1/2 then f
  else if 1/2 < r then f + 1
  else if f % 2 = 0 then f else f + 1

/-- Python `round(x, 2)`: round to two decimal places, ties to even. -/
def round2 (q : ℚ) : ℚ := (roundHalfEven (q * 100) : ℚ) / 100

/--
One period of financial data.  Mirrors the numeric fields of
`models.FinancialData` after the get-with-default extraction at the top of
`calculate_analytics` (every absent field defaults to 0); `period` is the
sort label used by the batch path.
-/
structure FinancialData where
  period : String := ""
  revenue : ℚ := 0
  cost_of_goods : ℚ := 0
  overheads : ℚ := 0
  depreciation : ℚ := 0
  interest_paid : ℚ := 0
  tax_paid : ℚ := 0
  cash : ℚ := 0
  accounts_receivable : ℚ := 0
  inventory : ℚ := 0
  fixed_assets : ℚ := 0
  current_liabilities : ℚ := 0
  noncurrent_liabilities : ℚ := 0
  accounts_payable : ℚ := 0
deriving DecidableEq

/--
Scalar engine: `calculations.calculate_analytics`.  Returns the metric
dictionary as an association list in the source's insertion order.
-/
def calculate_analytics (financial_data : FinancialData)
    (previous_period : Option FinancialData) : List (String × ℚ) :=
  let revenue := financial_data.revenue
  let cogs := financial_data.cost_of_goods
  let overheads := financial_data.overheads
  let depreciation := financial_data.depreciation
  let interest := financial_data.interest_paid
  let tax := financial_data.tax_paid
  let cash := financial_data.cash
  let receivables := financial_data.accounts_receivable
  let inventory := financial_data.inventory
  let fixed_assets := financial_data.fixed_assets
  let current_liabilities := financial_data.current_liabilities
  let noncurrent_liabilities := financial_data.noncurrent_liabilities
  let payables := financial_data.accounts_payable
  let revenue_growth_percent : ℚ :=
    match previous_period with
    | some prev =>
      if prev.revenue > 0 then round2 ((revenue - prev.revenue) / prev.revenue * 100) else 0
    | none => 0
  let gross_margin := revenue - cogs
  let gross_margin_percent := round2 (if revenue > 0 then gross_margin / revenue * 100 else 0)
  let operating_profit := gross_margin - overheads
  let operating_profit_percent := round2 (if revenue > 0 then operating_profit / revenue * 100 else 0)
  let ebitda := operating_profit + depreciation
  let net_profit_before_tax := operating_profit - interest
  let net_profit := net_profit_before_tax - tax
  let net_profit_percent := round2 (if revenue > 0 then net_profit / revenue * 100 else 0)
  let ebitda_percent := round2 (if revenue > 0 then ebitda / revenue * 100 else 0)
  let interest_coverage := round2 (if interest > 0 then operating_profit / interest else 0)
  let accounts_receivable_days := round2 (if revenue > 0 then receivables / revenue * 365 else 0)
  let inventory_days := round2 (if cogs > 0 then inventory / cogs * 365 else 0)
  let accounts_payable_days := round2 (if cogs > 0 then payables / cogs * 365 else 0)
  let working_capital_days :=
    round2 (accounts_receivable_days + inventory_days - accounts_payable_days)
  let current_assets := cash + receivables + inventory
  let working_capital := current_assets - current_liabilities
  let working_capital_per_100 := round2 (if revenue > 0 then working_capital / revenue * 100 else 0)
  let current_ratio :=
    round2 (if current_liabilities > 0 then current_assets / current_liabilities else 0)
  let total_assets := current_assets + fixed_assets
  let total_liabilities := current_liabilities + noncurrent_liabilities
  let equity := total_assets - total_liabilities
  let total_capital := working_capital + fixed_assets
  let return_on_capital :=
    round2 (if total_capital > 0 then operating_profit / total_capital * 100 else 0)
  let asset_turnover := round2 (if total_assets > 0 then revenue / total_assets else 0)
  let return_on_equity := round2 (if equity > 0 then net_profit / equity * 100 else 0)
  let return_on_assets := round2 (if total_assets > 0 then net_profit / total_assets * 100 else 0)
  let fixed_assets_turnover := round2 (if fixed_assets > 0 then revenue / fixed_assets else 0)
  let debt_to_equity := round2 (if equity > 0 then total_liabilities / equity else 0)
  let total_capital_debt := equity + total_liabilities
  let debt_to_capital :=
    round2 (if total_capital_debt > 0 then total_liabilities / total_capital_debt else 0)
  let equity_ratio := round2 (if total_assets > 0 then equity / total_assets * 100 else 0)
  let operating_cash_flow := round2 (net_profit + depreciation)
  [("revenue_growth_percent", revenue_growth_percent),
   ("gross_margin_percent", gross_margin_percent),
   ("operating_profit_percent", operating_profit_percent),
   ("net_profit_percent", net_profit_percent),
   ("ebitda_percent", ebitda_percent),
   ("interest_coverage", interest_coverage),
   ("accounts_receivable_days", accounts_receivable_days),
   ("inventory_days", inventory_days),
   ("accounts_payable_days", accounts_payable_days),
   ("working_capital_days", working_capital_days),
   ("working_capital_per_100", working_capital_per_100),
   ("current_ratio", current_ratio),
   ("return_on_capital", return_on_capital),
   ("asset_turnover", asset_turnover),
   ("return_on_equity", return_on_equity),
   ("return_on_assets", return_on_assets),
   ("fixed_assets_turnover", fixed_assets_turnover),
   ("debt_to_equity", debt_to_equity),
   ("debt_to_capital", debt_to_capital),
   ("equity_ratio", equity_ratio),
   ("operating_cash_flow", operating_cash_flow)]

/-- The 21 metric names, in the dictionary insertion order of the source. -/
def metricNames : List String :=
  ["revenue_growth_percent", "gross_margin_percent", "operating_profit_percent",
   "net_profit_percent", "ebitda_percent", "interest_coverage",
   "accounts_receivable_days", "inventory_days", "accounts_payable_days",
   "working_capital_days", "working_capital_per_100", "current_ratio",
   "return_on_capital", "asset_turnover", "return_on_equity",
   "return_on_assets", "fixed_assets_turnover", "debt_to_equity",
   "debt_to_capital", "equity_ratio", "operating_cash_flow"]


/-- `gross_margin = revenue - cost_of_goods` (derivation step 1). -/
def FinancialData.gross_margin (fd : FinancialData) : ℚ := fd.revenue - fd.cost_of_goods

/-- `operating_profit = gross_margin - overheads` (derivation step 2). -/
def FinancialData.operating_profit (fd : FinancialData) : ℚ := fd.gross_margin - fd.overheads

/-- `ebitda = operating_profit + depreciation` (derivation step 3). -/
def FinancialData.ebitda (fd : FinancialData) : ℚ := fd.operating_profit + fd.depreciation

/-- `net_profit = operating_profit - interest_paid - tax_paid` (derivation step 4). -/
def FinancialData.net_profit (fd : FinancialData) : ℚ :=
  fd.operating_profit - fd.interest_paid - fd.tax_paid

/-- `current_assets = cash + accounts_receivable + inventory` (derivation step 5). -/
def FinancialData.current_assets (fd : FinancialData) : ℚ :=
  fd.cash + fd.accounts_receivable + fd.inventory

/-- `working_capital = current_assets - current_liabilities` (derivation step 6). -/
def FinancialData.working_capital (fd : FinancialData) : ℚ :=
  fd.current_assets - fd.current_liabilities

/-- `total_assets = current_assets + fixed_assets` (derivation step 7). -/
def FinancialData.total_assets (fd : FinancialData) : ℚ := fd.current_assets + fd.fixed_assets

/-- `total_liabilities = current_liabilities + noncurrent_liabilities` (derivation step 8). -/
def FinancialData.total_liabilities (fd : FinancialData) : ℚ :=
  fd.current_liabilities + fd.noncurrent_liabilities

/-- `equity = total_assets - total_liabilities` (derivation step 9). -/
def FinancialData.equity (fd : FinancialData) : ℚ := fd.total_assets - fd.total_liabilities

/-- `total_capital = working_capital + fixed_assets` (derivation step 10). -/
def FinancialData.total_capital (fd : FinancialData) : ℚ := fd.working_capital + fd.fixed_assets

/-- `total_capital_debt = equity + total_liabilities` (denominator of debt_to_capital). -/
def FinancialData.total_capital_debt (fd : FinancialData) : ℚ :=
  fd.equity + fd.total_liabilities

/--
Division as the fallible operation it is in Python: a zero divisor raises
`ZeroDivisionError`, embedded as `none`.
-/
def qdiv (a b : ℚ) : Option ℚ := if b = 0 then none else some (a / b)

/--
One guarded metric site of the source, `round((num / den) if den > 0 else 0, 2)`,
with the division fallible and evaluated only under its guard.
-/
def safeRatio (num den : ℚ) : Option ℚ :=
  (if den > 0 then qdiv num den else some 0).map round2

/--
One guarded metric site of the source, `round((num / den * s) if den > 0 else 0, 2)`
(`s` is 100 for percentages, 365 for days), with the division fallible and
evaluated only under its guard.
-/
def safeScaled (num den s : ℚ) : Option ℚ :=
  (if den > 0 then (qdiv num den).map (fun x => x * s) else some 0).map round2

/--
The guarded growth site of the source: previous period present and
`previous_period['revenue'] > 0`, else 0.0; the division fallible.
-/
def safeGrowth (fd : FinancialData) (previous_period : Option FinancialData) : Option ℚ :=
  match previous_period with
  | some prev =>
    if prev.revenue > 0 then
      (qdiv (fd.revenue - prev.revenue) prev.revenue).map (fun x => round2 (x * 100))
    else some 0
  | none => some 0

/--
Group 1 (profitability) of the fallible scalar engine: the six metrics of
`calculate_analytics` whose computation precedes the working-capital group,
with divisions fallible and evaluated only under their guards.
-/
def safeProfitability (fd : FinancialData) (previous_period : Option FinancialData) :
    Option (List (String × ℚ)) := do
  let revenue_growth_percent ← safeGrowth fd previous_period
  let gross_margin_percent ← safeScaled fd.gross_margin fd.revenue 100
  let operating_profit_percent ← safeScaled fd.operating_profit fd.revenue 100
  let net_profit_percent ← safeScaled fd.net_profit fd.revenue 100
  let ebitda_percent ← safeScaled fd.ebitda fd.revenue 100
  let interest_coverage ← safeRatio fd.operating_profit fd.interest_paid
  pure
    [("revenue_growth_percent", revenue_growth_percent),
     ("gross_margin_percent", gross_margin_percent),
     ("operating_profit_percent", operating_profit_percent),
     ("net_profit_percent", net_profit_percent),
     ("ebitda_percent", ebitda_percent),
     ("interest_coverage", interest_coverage)]

/--
Group 2 (working capital) of the fallible scalar engine; as in the source,
`working_capital_days` is the rounded sum of the three already-rounded
days metrics.
-/
def safeWorkingCapital (fd : FinancialData) : Option (List (String × ℚ)) := do
  let accounts_receivable_days ← safeScaled fd.accounts_receivable fd.revenue 365
  let inventory_days ← safeScaled fd.inventory fd.cost_of_goods 365
  let accounts_payable_days ← safeScaled fd.accounts_payable fd.cost_of_goods 365
  let working_capital_per_100 ← safeScaled fd.working_capital fd.revenue 100
  let current_ratio ← safeRatio fd.current_assets fd.current_liabilities
  pure
    [("accounts_receivable_days", accounts_receivable_days),
     ("inventory_days", inventory_days),
     ("accounts_payable_days", accounts_payable_days),
     ("working_capital_days",
       round2 (accounts_receivable_days + inventory_days - accounts_payable_days)),
     ("working_capital_per_100", working_capital_per_100),
     ("current_ratio", current_ratio)]

/-- Group 3 (capital efficiency) of the fallible scalar engine. -/
def safeCapitalEfficiency (fd : FinancialData) : Option (List (String × ℚ)) := do
  let return_on_capital ← safeScaled fd.operating_profit fd.total_capital 100
  let asset_turnover ← safeRatio fd.revenue fd.total_assets
  let return_on_equity ← safeScaled fd.net_profit fd.equity 100
  let return_on_assets ← safeScaled fd.net_profit fd.total_assets 100
  let fixed_assets_turnover ← safeRatio fd.revenue fd.fixed_assets
  let debt_to_equity ← safeRatio fd.total_liabilities fd.equity
  let debt_to_capital ← safeRatio fd.total_liabilities fd.total_capital_debt
  let equity_ratio ← safeScaled fd.equity fd.total_assets 100
  pure
    [("return_on_capital", return_on_capital),
     ("asset_turnover", asset_turnover),
     ("return_on_equity", return_on_equity),
     ("return_on_assets", return_on_assets),
     ("fixed_assets_turnover", fixed_assets_turnover),
     ("debt_to_equity", debt_to_equity),
     ("debt_to_capital", debt_to_capital),
     ("equity_ratio", equity_ratio),
     ("operating_cash_flow", round2 (fd.net_profit + fd.depreciation))]

/--
`calculate_analytics` with every division made explicitly fallible,
evaluated only where the source evaluates it (under its guard), assembled
from the source's three metric groups in order.  `none` would mean a raised
`ZeroDivisionError`.
-/
def calculate_analytics_safe (financial_data : FinancialData)
    (previous_period : Option FinancialData) : Option (List (String × ℚ)) := do
  let group1 ← safeProfitability financial_data previous_period
  let group2 ← safeWorkingCapital financial_data
  let group3 ← safeCapitalEfficiency financial_data
  pure (group1 ++ group2 ++ group3)

/--
The loop of the `/api/calculate/batch` endpoint (`main.calculate_batch`):
period `i` is computed with period `i-1` as previous period, the first
period with none; no sorting is performed.
-/
def batchLoop (previous : Option FinancialData) : List FinancialData → List (List (String × ℚ))
  | [] => []
  | p :: rest => calculate_analytics p previous :: batchLoop (some p) rest

/-- `main.calculate_batch`: metric sets for the request's periods, in order. -/
def calculate_batch (periods : List FinancialData) : List (List (String × ℚ)) :=
  batchLoop none periods

/--
A pandas/numpy float value as produced by the vectorized path: a finite
value (embedded exactly as a rational), positive or negative infinity, or
NaN.
-/
inductive EF where
  | q (x : ℚ)
  | inf
  | ninf
  | nan
deriving DecidableEq

/--
Float division of finite values as numpy performs it: a zero divisor gives
`inf`, `ninf` or `nan` according to the sign of the numerator.
-/
def efDiv (a b : ℚ) : EF :=
  if b = 0 then
    if 0 < a then EF.inf else if a < 0 then EF.ninf else EF.nan
  else EF.q (a / b)

/-- Multiplication of a float value by a finite constant (100 or 365 here). -/
def efMulQ : EF → ℚ → EF
  | EF.q x, c => EF.q (x * c)
  | EF.inf, c => if 0 < c then EF.inf else if c < 0 then EF.ninf else EF.nan
  | EF.ninf, c => if 0 < c then EF.ninf else if c < 0 then EF.inf else EF.nan
  | EF.nan, _ => EF.nan

/-- IEEE float addition on the special values. -/
def efAdd : EF → EF → EF
  | EF.nan, _ => EF.nan
  | _, EF.nan => EF.nan
  | EF.inf, EF.ninf => EF.nan
  | EF.ninf, EF.inf => EF.nan
  | EF.inf, _ => EF.inf
  | _, EF.inf => EF.inf
  | EF.ninf, _ => EF.ninf
  | _, EF.ninf => EF.ninf
  | EF.q a, EF.q b => EF.q (a + b)

/-- IEEE float negation. -/
def efNeg : EF → EF
  | EF.q a => EF.q (-a)
  | EF.inf => EF.ninf
  | EF.ninf => EF.inf
  | EF.nan => EF.nan

/-- IEEE float subtraction, `a - b = a + (-b)`. -/
def efSub (a b : EF) : EF := efAdd a (efNeg b)

/-- `replace([inf, -inf], 0)`: infinities become 0, NaN survives. -/
def efReplaceInf : EF → EF
  | EF.inf => EF.q 0
  | EF.ninf => EF.q 0
  | x => x

/-- `.round(2)` on a float column entry: NaN and infinities are unchanged. -/
def efRound2 : EF → EF
  | EF.q x => EF.q (round2 x)
  | x => x

/--
`pct_change` of a revenue cell relative to the previous row: NaN for the
first row, else `(cur - prev) / prev` with float division semantics.
-/
def efPctChange (previousRevenue : Option ℚ) (revenue : ℚ) : EF :=
  match previousRevenue with
  | none => EF.nan
  | some prev => efDiv (revenue - prev) prev

/--
One row of `calculations.calculate_analytics_df` after sorting: the 21
calculated columns for `row`, whose only cross-row input is the previous
row's revenue (through `pct_change`).  Raw column formulas are the source's
vectorized ones; each returned metric is the raw value with infinities
replaced by 0 (the source's `replace`) and then rounded to 2 decimals (the
source's final rounding pass).  `interest_coverage` is additionally
replaced right after its division, as in the source; the second replacement
is idempotent, so one `efReplaceInf` embeds both.
-/
def dfRowMetrics (previousRevenue : Option ℚ) (row : FinancialData) : List (String × EF) :=
  let revenue_growth_raw := efMulQ (efPctChange previousRevenue row.revenue) 100
  let gross_margin := row.revenue - row.cost_of_goods
  let gross_margin_percent_raw := efMulQ (efDiv gross_margin row.revenue) 100
  let operating_profit := gross_margin - row.overheads
  let operating_profit_percent_raw := efMulQ (efDiv operating_profit row.revenue) 100
  let ebitda := operating_profit + row.depreciation
  let ebitda_percent_raw := efMulQ (efDiv ebitda row.revenue) 100
  let net_profit := operating_profit - row.interest_paid - row.tax_paid
  let net_profit_percent_raw := efMulQ (efDiv net_profit row.revenue) 100
  let interest_coverage_raw := efReplaceInf (efDiv operating_profit row.interest_paid)
  let accounts_receivable_days_raw := efMulQ (efDiv row.accounts_receivable row.revenue) 365
  let inventory_days_raw := efMulQ (efDiv row.inventory row.cost_of_goods) 365
  let accounts_payable_days_raw := efMulQ (efDiv row.accounts_payable row.cost_of_goods) 365
  let working_capital_days_raw :=
    efSub (efAdd accounts_receivable_days_raw inventory_days_raw) accounts_payable_days_raw
  let current_assets := row.cash + row.accounts_receivable + row.inventory
  let working_capital := current_assets - row.current_liabilities
  let working_capital_per_100_raw := efMulQ (efDiv working_capital row.revenue) 100
  let current_ratio_raw := efDiv current_assets row.current_liabilities
  let total_assets := current_assets + row.fixed_assets
  let total_liabilities := row.current_liabilities + row.noncurrent_liabilities
  let equity := total_assets - total_liabilities
  let total_capital := working_capital + row.fixed_assets
  let return_on_capital_raw := efMulQ (efDiv operating_profit total_capital) 100
  let asset_turnover_raw := efDiv row.revenue total_assets
  let return_on_equity_raw := efMulQ (efDiv net_profit equity) 100
  let return_on_assets_raw := efMulQ (efDiv net_profit total_assets) 100
  let fixed_assets_turnover_raw := efDiv row.revenue row.fixed_assets
  let debt_to_equity_raw := efDiv total_liabilities equity
  let total_capital_debt := equity + total_liabilities
  let debt_to_capital_raw := efDiv total_liabilities total_capital_debt
  let equity_ratio_raw := efMulQ (efDiv equity total_assets) 100
  let operating_cash_flow_raw := EF.q (net_profit + row.depreciation)
  [("revenue_growth_percent", efRound2 (efReplaceInf revenue_growth_raw)),
   ("gross_margin_percent", efRound2 (efReplaceInf gross_margin_percent_raw)),
   ("operating_profit_percent", efRound2 (efReplaceInf operating_profit_percent_raw)),
   ("net_profit_percent", efRound2 (efReplaceInf net_profit_percent_raw)),
   ("ebitda_percent", efRound2 (efReplaceInf ebitda_percent_raw)),
   ("interest_coverage", efRound2 (efReplaceInf interest_coverage_raw)),
   ("accounts_receivable_days", efRound2 (efReplaceInf accounts_receivable_days_raw)),
   ("inventory_days", efRound2 (efReplaceInf inventory_days_raw)),
   ("accounts_payable_days", efRound2 (efReplaceInf accounts_payable_days_raw)),
   ("working_capital_days", efRound2 (efReplaceInf working_capital_days_raw)),
   ("working_capital_per_100", efRound2 (efReplaceInf working_capital_per_100_raw)),
   ("current_ratio", efRound2 (efReplaceInf current_ratio_raw)),
   ("return_on_capital", efRound2 (efReplaceInf return_on_capital_raw)),
   ("asset_turnover", efRound2 (efReplaceInf asset_turnover_raw)),
   ("return_on_equity", efRound2 (efReplaceInf return_on_equity_raw)),
   ("return_on_assets", efRound2 (efReplaceInf return_on_assets_raw)),
   ("fixed_assets_turnover", efRound2 (efReplaceInf fixed_assets_turnover_raw)),
   ("debt_to_equity", efRound2 (efReplaceInf debt_to_equity_raw)),
   ("debt_to_capital", efRound2 (efReplaceInf debt_to_capital_raw)),
   ("equity_ratio", efRound2 (efReplaceInf equity_ratio_raw)),
   ("operating_cash_flow", efRound2 (efReplaceInf operating_cash_flow_raw))]

/-- Code-point comparison of strings as character lists (lexicographic). -/
def charListLe : List Char → List Char → Bool
  | [], _ => true
  | _ :: _, [] => false
  | a :: as, b :: bs =>
    if a.val < b.val then true
    else if b.val < a.val then false
    else charListLe as bs

/-- Lexicographic string order used for the `sort_values('period')` step. -/
def strLe (a b : String) : Bool := charListLe a.data b.data

/-- Insert a row into a period-sorted list of rows. -/
def insertByPeriod (r : FinancialData) : List FinancialData → List FinancialData
  | [] => [r]
  | x :: xs => if strLe r.period x.period then r :: x :: xs else x :: insertByPeriod r xs

/--
`df.sort_values('period')`: sort rows by the `period` label
lexicographically (insertion sort; on distinct labels any comparison sort
agrees).
-/
def sortByPeriod : List FinancialData → List FinancialData
  | [] => []
  | x :: xs => insertByPeriod x (sortByPeriod xs)

/-- Row-wise pass of the vectorized engine, threading the previous row's revenue. -/
def dfLoop (previousRevenue : Option ℚ) : List FinancialData → List (List (String × EF))
  | [] => []
  | row :: rest => dfRowMetrics previousRevenue row :: dfLoop (some row.revenue) rest

/--
`calculations.calculate_analytics_df`: sort the rows chronologically by
their `period` label, then compute the 21 calculated columns of each row;
`pct_change` reads the previous row's revenue, every other formula is
row-local.
-/
def calculate_analytics_df (rows : List FinancialData) : List (List (String × EF)) :=
  dfLoop none (sortByPeriod rows)

/--
A raw input dictionary as seen by `validate_financial_data`: only the
fields the validator inspects, each possibly absent (`none` also covers an
explicit `None`, which the revenue presence check treats as missing).
-/
structure RawFinancialDict where
  revenue : Option ℚ := none
  cash : Option ℚ := none
  accounts_receivable : Option ℚ := none
  inventory : Option ℚ := none
  fixed_assets : Option ℚ := none
deriving DecidableEq

/-- `field in data and data[field] < 0`: present and negative. -/
def negField : Option ℚ → Bool
  | some v => decide (v < 0)
  | none => false

/--
`calculations.validate_financial_data`: reject when `revenue` is missing,
then reject the first of the five non-negative fields that is present and
negative, else accept with an empty message.
-/
def validate_financial_data (data : RawFinancialDict) : Bool × String :=
  if data.revenue = none then (false, "Missing required field: revenue")
  else if negField data.revenue then (false, "revenue cannot be negative")
  else if negField data.cash then (false, "cash cannot be negative")
  else if negField data.accounts_receivable then (false, "accounts_receivable cannot be negative")
  else if negField data.inventory then (false, "inventory cannot be negative")
  else if negField data.fixed_assets then (false, "fixed_assets cannot be negative")
  else (true, "")

/-- `models.AnalyticsResponse`: one period's input paired with its metrics. -/
structure AnalyticsResponse where
  input_data : FinancialData
  analytics : List (String × ℚ)
  previous_period : Option FinancialData := none

/-- `models.BatchAnalyticsResponse`: the batch response record. -/
structure BatchAnalyticsResponse where
  company_name : String
  periods : List AnalyticsResponse
  total_periods : ℤ

/--
The constructor of `models.BatchAnalyticsResponse`: pydantic first stores
the caller-supplied fields (`total_periods` defaults to 0 when absent),
then `__init__` overwrites `self.total_periods` with `len(self.periods)`.
-/
def mkBatchAnalyticsResponse (company_name : String) (periods : List AnalyticsResponse)
    (total_periods : ℤ) : BatchAnalyticsResponse :=
  let r : BatchAnalyticsResponse :=
    { company_name := company_name, periods := periods, total_periods := total_periods }
  { r with total_periods := r.periods.length }

lemma roundHalfEven_intCast (n : ℤ) : roundHalfEven (n : ℚ) = n := by
  norm_num [roundHalfEven]

lemma round2_hundredth (n : ℤ) : round2 ((n : ℚ) / 100) = (n : ℚ) / 100 := by
  have h : ((n : ℚ) / 100) * 100 = (n : ℚ) := by field_simp
  rw [round2, h, roundHalfEven_intCast]

lemma round2_isHundredth (q : ℚ) : ∃ n : ℤ, round2 q = (n : ℚ) / 100 :=
  ⟨roundHalfEven (q * 100), rfl⟩

lemma round2_zero : round2 0 = 0 := by
  have h := round2_hundredth 0
  simpa using h

lemma round2_add_sub_round2 (a b c : ℚ) :
    round2 (round2 a + round2 b - round2 c) = round2 a + round2 b - round2 c := by
  obtain ⟨x, hx⟩ := round2_isHundredth a
  obtain ⟨y, hy⟩ := round2_isHundredth b
  obtain ⟨z, hz⟩ := round2_isHundredth c
  rw [hx, hy, hz]
  have h : (x : ℚ) / 100 + (y : ℚ) / 100 - (z : ℚ) / 100 = ((x + y - z : ℤ) : ℚ) / 100 := by
    push_cast
    ring
  rw [h, round2_hundredth]

lemma lookup_growth_none (fd : FinancialData) :
    List.lookup "revenue_growth_percent" (calculate_analytics fd none) = some 0 := rfl

lemma lookup_growth_some (fd p : FinancialData) :
    List.lookup "revenue_growth_percent" (calculate_analytics fd (some p)) =
      some (if p.revenue > 0 then round2 ((fd.revenue - p.revenue) / p.revenue * 100) else 0) := rfl

lemma lookup_gmp (fd : FinancialData) (prev : Option FinancialData) :
    List.lookup "gross_margin_percent" (calculate_analytics fd prev) =
      some (round2 (if fd.revenue > 0 then (fd.revenue - fd.cost_of_goods) / fd.revenue * 100 else 0)) := rfl

lemma lookup_opp (fd : FinancialData) (prev : Option FinancialData) :
    List.lookup "operating_profit_percent" (calculate_analytics fd prev) =
      some (round2 (if fd.revenue > 0 then (fd.revenue - fd.cost_of_goods - fd.overheads) / fd.revenue * 100 else 0)) := rfl

lemma lookup_npp (fd : FinancialData) (prev : Option FinancialData) :
    List.lookup "net_profit_percent" (calculate_analytics fd prev) =
      some (round2 (if fd.revenue > 0 then
        (fd.revenue - fd.cost_of_goods - fd.overheads - fd.interest_paid - fd.tax_paid) / fd.revenue * 100 else 0)) := rfl

lemma lookup_ebitda (fd : FinancialData) (prev : Option FinancialData) :
    List.lookup "ebitda_percent" (calculate_analytics fd prev) =
      some (round2 (if fd.revenue > 0 then
        (fd.revenue - fd.cost_of_goods - fd.overheads + fd.depreciation) / fd.revenue * 100 else 0)) := rfl

lemma lookup_ic (fd : FinancialData) (prev : Option FinancialData) :
    List.lookup "interest_coverage" (calculate_analytics fd prev) =
      some (round2 (if fd.interest_paid > 0 then
        (fd.revenue - fd.cost_of_goods - fd.overheads) / fd.interest_paid else 0)) := rfl

lemma lookup_ar (fd : FinancialData) (prev : Option FinancialData) :
    List.lookup "accounts_receivable_days" (calculate_analytics fd prev) =
      some (round2 (if fd.revenue > 0 then fd.accounts_receivable / fd.revenue * 365 else 0)) := rfl

lemma lookup_inv (fd : FinancialData) (prev : Option FinancialData) :
    List.lookup "inventory_days" (calculate_analytics fd prev) =
      some (round2 (if fd.cost_of_goods > 0 then fd.inventory / fd.cost_of_goods * 365 else 0)) := rfl

lemma lookup_ap (fd : FinancialData) (prev : Option FinancialData) :
    List.lookup "accounts_payable_days" (calculate_analytics fd prev) =
      some (round2 (if fd.cost_of_goods > 0 then fd.accounts_payable / fd.cost_of_goods * 365 else 0)) := rfl

lemma lookup_wcd (fd : FinancialData) (prev : Option FinancialData) :
    List.lookup "working_capital_days" (calculate_analytics fd prev) =
      some (round2
        (round2 (if fd.revenue > 0 then fd.accounts_receivable / fd.revenue * 365 else 0) +
         round2 (if fd.cost_of_goods > 0 then fd.inventory / fd.cost_of_goods * 365 else 0) -
         round2 (if fd.cost_of_goods > 0 then fd.accounts_payable / fd.cost_of_goods * 365 else 0))) := rfl

lemma lookup_wcp (fd : FinancialData) (prev : Option FinancialData) :
    List.lookup "working_capital_per_100" (calculate_analytics fd prev) =
      some (round2 (if fd.revenue > 0 then
        (fd.cash + fd.accounts_receivable + fd.inventory - fd.current_liabilities) / fd.revenue * 100 else 0)) := rfl

lemma lookup_cr (fd : FinancialData) (prev : Option FinancialData) :
    List.lookup "current_ratio" (calculate_analytics fd prev) =
      some (round2 (if fd.current_liabilities > 0 then
        (fd.cash + fd.accounts_receivable + fd.inventory) / fd.current_liabilities else 0)) := rfl

lemma lookup_roc (fd : FinancialData) (prev : Option FinancialData) :
    List.lookup "return_on_capital" (calculate_analytics fd prev) =
      some (round2 (if fd.cash + fd.accounts_receivable + fd.inventory - fd.current_liabilities + fd.fixed_assets > 0 then
        (fd.revenue - fd.cost_of_goods - fd.overheads) /
          (fd.cash + fd.accounts_receivable + fd.inventory - fd.current_liabilities + fd.fixed_assets) * 100 else 0)) := rfl

lemma lookup_at (fd : FinancialData) (prev : Option FinancialData) :
    List.lookup "asset_turnover" (calculate_analytics fd prev) =
      some (round2 (if fd.cash + fd.accounts_receivable + fd.inventory + fd.fixed_assets > 0 then
        fd.revenue / (fd.cash + fd.accounts_receivable + fd.inventory + fd.fixed_assets) else 0)) := rfl

lemma lookup_roe (fd : FinancialData) (prev : Option FinancialData) :
    List.lookup "return_on_equity" (calculate_analytics fd prev) =
      some (round2 (if fd.cash + fd.accounts_receivable + fd.inventory + fd.fixed_assets -
          (fd.current_liabilities + fd.noncurrent_liabilities) > 0 then
        (fd.revenue - fd.cost_of_goods - fd.overheads - fd.interest_paid - fd.tax_paid) /
          (fd.cash + fd.accounts_receivable + fd.inventory + fd.fixed_assets -
            (fd.current_liabilities + fd.noncurrent_liabilities)) * 100 else 0)) := rfl

lemma lookup_roa (fd : FinancialData) (prev : Option FinancialData) :
    List.lookup "return_on_assets" (calculate_analytics fd prev) =
      some (round2 (if fd.cash + fd.accounts_receivable + fd.inventory + fd.fixed_assets > 0 then
        (fd.revenue - fd.cost_of_goods - fd.overheads - fd.interest_paid - fd.tax_paid) /
          (fd.cash + fd.accounts_receivable + fd.inventory + fd.fixed_assets) * 100 else 0)) := rfl

lemma lookup_fat (fd : FinancialData) (prev : Option FinancialData) :
    List.lookup "fixed_assets_turnover" (calculate_analytics fd prev) =
      some (round2 (if fd.fixed_assets > 0 then fd.revenue / fd.fixed_assets else 0)) := rfl

lemma lookup_dte (fd : FinancialData) (prev : Option FinancialData) :
    List.lookup "debt_to_equity" (calculate_analytics fd prev) =
      some (round2 (if fd.cash + fd.accounts_receivable + fd.inventory + fd.fixed_assets -
          (fd.current_liabilities + fd.noncurrent_liabilities) > 0 then
        (fd.current_liabilities + fd.noncurrent_liabilities) /
          (fd.cash + fd.accounts_receivable + fd.inventory + fd.fixed_assets -
            (fd.current_liabilities + fd.noncurrent_liabilities)) else 0)) := rfl

lemma lookup_dtc (fd : FinancialData) (prev : Option FinancialData) :
    List.lookup "debt_to_capital" (calculate_analytics fd prev) =
      some (round2 (if fd.cash + fd.accounts_receivable + fd.inventory + fd.fixed_assets -
          (fd.current_liabilities + fd.noncurrent_liabilities) +
          (fd.current_liabilities + fd.noncurrent_liabilities) > 0 then
        (fd.current_liabilities + fd.noncurrent_liabilities) /
          (fd.cash + fd.accounts_receivable + fd.inventory + fd.fixed_assets -
            (fd.current_liabilities + fd.noncurrent_liabilities) +
            (fd.current_liabilities + fd.noncurrent_liabilities)) else 0)) := rfl

lemma lookup_er (fd : FinancialData) (prev : Option FinancialData) :
    List.lookup "equity_ratio" (calculate_analytics fd prev) =
      some (round2 (if fd.cash + fd.accounts_receivable + fd.inventory + fd.fixed_assets > 0 then
        (fd.cash + fd.accounts_receivable + fd.inventory + fd.fixed_assets -
          (fd.current_liabilities + fd.noncurrent_liabilities)) /
          (fd.cash + fd.accounts_receivable + fd.inventory + fd.fixed_assets) * 100 else 0)) := rfl

lemma lookup_ocf (fd : FinancialData) (prev : Option FinancialData) :
    List.lookup "operating_cash_flow" (calculate_analytics fd prev) =
      some (round2 (fd.revenue - fd.cost_of_goods - fd.overheads - fd.interest_paid - fd.tax_paid +
        fd.depreciation)) := rfl

lemma qdiv_of_pos (a b : ℚ) (h : b > 0) : qdiv a b = some (a / b) := by
  simp [qdiv, h.ne']

lemma safeScaled_eq (num den s : ℚ) :
    safeScaled num den s = some (round2 (if den > 0 then num / den * s else 0)) := by
  unfold safeScaled
  split_ifs with h
  · rw [qdiv_of_pos _ _ h]
    rfl
  · rfl

lemma safeRatio_eq (num den : ℚ) :
    safeRatio num den = some (round2 (if den > 0 then num / den else 0)) := by
  unfold safeRatio
  split_ifs with h
  · rw [qdiv_of_pos _ _ h]
    rfl
  · rfl

lemma safeGrowth_eq (fd : FinancialData) (prev : Option FinancialData) :
    safeGrowth fd prev = some (match prev with
      | some p =>
        if p.revenue > 0 then round2 ((fd.revenue - p.revenue) / p.revenue * 100) else 0
      | none => 0) := by
  cases prev with
  | none => rfl
  | some p =>
    show (if p.revenue > 0 then
        (qdiv (fd.revenue - p.revenue) p.revenue).map (fun x => round2 (x * 100))
      else some 0) =
      some (if p.revenue > 0 then round2 ((fd.revenue - p.revenue) / p.revenue * 100) else 0)
    split_ifs with h
    · rw [qdiv_of_pos _ _ h]
      rfl
    · rfl

lemma safeProfitability_eq (fd : FinancialData) (prev : Option FinancialData) :
    safeProfitability fd prev = some
      [("revenue_growth_percent", (match prev with
          | some p =>
            if p.revenue > 0 then round2 ((fd.revenue - p.revenue) / p.revenue * 100) else 0
          | none => 0 : ℚ)),
       ("gross_margin_percent",
         round2 (if fd.revenue > 0 then fd.gross_margin / fd.revenue * 100 else 0)),
       ("operating_profit_percent",
         round2 (if fd.revenue > 0 then fd.operating_profit / fd.revenue * 100 else 0)),
       ("net_profit_percent",
         round2 (if fd.revenue > 0 then fd.net_profit / fd.revenue * 100 else 0)),
       ("ebitda_percent",
         round2 (if fd.revenue > 0 then fd.ebitda / fd.revenue * 100 else 0)),
       ("interest_coverage",
         round2 (if fd.interest_paid > 0 then fd.operating_profit / fd.interest_paid else 0))] := by
  unfold safeProfitability
  rw [safeGrowth_eq]
  simp only [safeScaled_eq, safeRatio_eq, Option.some_bind]
  rfl

lemma safeWorkingCapital_eq (fd : FinancialData) :
    safeWorkingCapital fd = some
      [("accounts_receivable_days",
         round2 (if fd.revenue > 0 then fd.accounts_receivable / fd.revenue * 365 else 0)),
       ("inventory_days",
         round2 (if fd.cost_of_goods > 0 then fd.inventory / fd.cost_of_goods * 365 else 0)),
       ("accounts_payable_days",
         round2 (if fd.cost_of_goods > 0 then fd.accounts_payable / fd.cost_of_goods * 365 else 0)),
       ("working_capital_days",
         round2
           (round2 (if fd.revenue > 0 then fd.accounts_receivable / fd.revenue * 365 else 0) +
            round2 (if fd.cost_of_goods > 0 then fd.inventory / fd.cost_of_goods * 365 else 0) -
            round2 (if fd.cost_of_goods > 0 then fd.accounts_payable / fd.cost_of_goods * 365 else 0))),
       ("working_capital_per_100",
         round2 (if fd.revenue > 0 then fd.working_capital / fd.revenue * 100 else 0)),
       ("current_ratio",
         round2 (if fd.current_liabilities > 0 then
           fd.current_assets / fd.current_liabilities else 0))] := by
  unfold safeWorkingCapital
  simp only [safeScaled_eq, safeRatio_eq, Option.some_bind]
  rfl

lemma safeCapitalEfficiency_eq (fd : FinancialData) :
    safeCapitalEfficiency fd = some
      [("return_on_capital",
         round2 (if fd.total_capital > 0 then fd.operating_profit / fd.total_capital * 100 else 0)),
       ("asset_turnover",
         round2 (if fd.total_assets > 0 then fd.revenue / fd.total_assets else 0)),
       ("return_on_equity",
         round2 (if fd.equity > 0 then fd.net_profit / fd.equity * 100 else 0)),
       ("return_on_assets",
         round2 (if fd.total_assets > 0 then fd.net_profit / fd.total_assets * 100 else 0)),
       ("fixed_assets_turnover",
         round2 (if fd.fixed_assets > 0 then fd.revenue / fd.fixed_assets else 0)),
       ("debt_to_equity",
         round2 (if fd.equity > 0 then fd.total_liabilities / fd.equity else 0)),
       ("debt_to_capital",
         round2 (if fd.total_capital_debt > 0 then
           fd.total_liabilities / fd.total_capital_debt else 0)),
       ("equity_ratio",
         round2 (if fd.total_assets > 0 then fd.equity / fd.total_assets * 100 else 0)),
       ("operating_cash_flow", round2 (fd.net_profit + fd.depreciation))] := by
  unfold safeCapitalEfficiency
  simp only [safeScaled_eq, safeRatio_eq, Option.some_bind]
  rfl

lemma df_lookup_growth (pr : Option ℚ) (row : FinancialData) :
    List.lookup "revenue_growth_percent" (dfRowMetrics pr row) =
      some (efRound2 (efReplaceInf (efMulQ (efPctChange pr row.revenue) 100))) := rfl

lemma df_lookup_ar (pr : Option ℚ) (row : FinancialData) :
    List.lookup "accounts_receivable_days" (dfRowMetrics pr row) =
      some (efRound2 (efReplaceInf
        (efMulQ (efDiv row.accounts_receivable row.revenue) 365))) := rfl

lemma df_lookup_inv (pr : Option ℚ) (row : FinancialData) :
    List.lookup "inventory_days" (dfRowMetrics pr row) =
      some (efRound2 (efReplaceInf
        (efMulQ (efDiv row.inventory row.cost_of_goods) 365))) := rfl

lemma df_lookup_ap (pr : Option ℚ) (row : FinancialData) :
    List.lookup "accounts_payable_days" (dfRowMetrics pr row) =
      some (efRound2 (efReplaceInf
        (efMulQ (efDiv row.accounts_payable row.cost_of_goods) 365))) := rfl

lemma df_lookup_wcd (pr : Option ℚ) (row : FinancialData) :
    List.lookup "working_capital_days" (dfRowMetrics pr row) =
      some (efRound2 (efReplaceInf (efSub
        (efAdd (efMulQ (efDiv row.accounts_receivable row.revenue) 365)
               (efMulQ (efDiv row.inventory row.cost_of_goods) 365))
        (efMulQ (efDiv row.accounts_payable row.cost_of_goods) 365)))) := rfl

lemma df_lookup_dte (pr : Option ℚ) (row : FinancialData) :
    List.lookup "debt_to_equity" (dfRowMetrics pr row) =
      some (efRound2 (efReplaceInf (efDiv
        (row.current_liabilities + row.noncurrent_liabilities)
        (row.cash + row.accounts_receivable + row.inventory + row.fixed_assets -
          (row.current_liabilities + row.noncurrent_liabilities))))) := rfl

/--
Claim C3: for every input with revenue strictly greater than 0, the scalar
engine returns `gross_margin_percent = round((revenue - cost_of_goods) /
revenue * 100, 2)`.
-/
theorem C3_gross_margin_formula (fd : FinancialData) (prev : Option FinancialData)
    (h : fd.revenue > 0) :
    List.lookup "gross_margin_percent" (calculate_analytics fd prev) =
      some (round2 ((fd.revenue - fd.cost_of_goods) / fd.revenue * 100)) := by
  rw [lookup_gmp, if_pos h]

/--
Witness for C3 at the spec's scenario: revenue 1,000,000 and cost of goods
600,000 give a gross margin of 40%.
-/
theorem C3_witness :
    ({ revenue := 1000000, cost_of_goods := 600000 } : FinancialData).revenue > 0 ∧
    List.lookup "gross_margin_percent"
      (calculate_analytics { revenue := 1000000, cost_of_goods := 600000 } none) =
      some 40 := by
  constructor
  · norm_num
  · rw [C3_gross_margin_formula { revenue := 1000000, cost_of_goods := 600000 } none (by norm_num)]
    norm_num [round2, roundHalfEven]

/--
Claim C4 (amended): in the scalar engine, when no previous period is
supplied or the previous period's revenue is not strictly positive,
`revenue_growth_percent` is exactly 0.0; and the batch endpoint loop passes
no previous period for the first period of a series, so its first metric
set is the scalar one without a previous period.  (The vectorized
`calculate_analytics_df` violates the original claim: its first row's
growth is NaN, see the counterexample.)
-/
theorem C4_growth_default (fd : FinancialData) (prev : Option FinancialData)
    (rest : List FinancialData)
    (h : prev = none ∨ ∃ p, prev = some p ∧ p.revenue ≤ 0) :
    List.lookup "revenue_growth_percent" (calculate_analytics fd prev) = some 0 ∧
    (calculate_batch (fd :: rest)).getD 0 [] = calculate_analytics fd none := by
  constructor
  · rcases h with rfl | ⟨p, rfl, hp⟩
    · exact lookup_growth_none fd
    · rw [lookup_growth_some, if_neg (not_lt.mpr hp)]
  · rfl

/-- Witness for C4 at a concrete single-period batch with no previous period. -/
theorem C4_witness :
    List.lookup "revenue_growth_percent"
      (calculate_analytics { revenue := 500 } none) = some 0 ∧
    (calculate_batch [{ revenue := 500 }]).getD 0 [] =
      calculate_analytics { revenue := 500 } none :=
  C4_growth_default { revenue := 500 } none [] (Or.inl rfl)

def c4row : FinancialData := { period := "2023", revenue := 100 }

/--
Counterexample to C4 as stated: in the vectorized batch path the first
period's `revenue_growth_percent` is NaN (`pct_change` of the first row,
untouched by the infinity replacement), not 0.0.
-/
theorem C4_counterexample :
    List.lookup "revenue_growth_percent" ((calculate_analytics_df [c4row]).getD 0 []) =
      some EF.nan ∧ EF.nan ≠ EF.q 0 := by
  constructor
  · rfl
  · intro hcontra
    exact EF.noConfusion hcontra

/--
Claim C5 (amended): in the scalar engine, `working_capital_days` equals
`accounts_receivable_days + inventory_days - accounts_payable_days` exactly
as those three values appear in the returned metric set.  (The vectorized
path violates the identity: it sums the unrounded columns before the final
rounding pass, see the counterexample.)
-/
theorem C5_wcd_identity_scalar (fd : FinancialData) (prev : Option FinancialData) :
    List.lookup "working_capital_days" (calculate_analytics fd prev) =
      some ((List.lookup "accounts_receivable_days" (calculate_analytics fd prev)).getD 0 +
            (List.lookup "inventory_days" (calculate_analytics fd prev)).getD 0 -
            (List.lookup "accounts_payable_days" (calculate_analytics fd prev)).getD 0) := by
  rw [lookup_wcd, lookup_ar, lookup_inv, lookup_ap]
  simp only [Option.getD_some]
  rw [round2_add_sub_round2]

def c5row : FinancialData :=
  { period := "2023", revenue := 300, cost_of_goods := 300,
    accounts_receivable := 1, inventory := 1 }

/--
Counterexample to C5 as stated: in the vectorized batch path the returned
days metrics are 1.22, 1.22 and 0.0, but `working_capital_days` is 2.43
(the rounding of the unrounded sum 2.4333…), not 1.22 + 1.22 - 0.0 = 2.44.
-/
theorem C5_counterexample :
    List.lookup "working_capital_days" ((calculate_analytics_df [c5row]).getD 0 []) =
      some (EF.q (243/100)) ∧
    List.lookup "accounts_receivable_days" ((calculate_analytics_df [c5row]).getD 0 []) =
      some (EF.q (122/100)) ∧
    List.lookup "inventory_days" ((calculate_analytics_df [c5row]).getD 0 []) =
      some (EF.q (122/100)) ∧
    List.lookup "accounts_payable_days" ((calculate_analytics_df [c5row]).getD 0 []) =
      some (EF.q 0) ∧
    (243/100 : ℚ) ≠ 122/100 + 122/100 - 0 := by
  have hdf : (calculate_analytics_df [c5row]).getD 0 [] = dfRowMetrics none c5row := rfl
  refine ⟨?_, ?_, ?_, ?_, by norm_num⟩
  · rw [hdf, df_lookup_wcd]
    norm_num [c5row, efDiv, efMulQ, efAdd, efSub, efNeg, efReplaceInf, efRound2,
      round2, roundHalfEven]
  · rw [hdf, df_lookup_ar]
    norm_num [c5row, efDiv, efMulQ, efReplaceInf, efRound2, round2, roundHalfEven]
  · rw [hdf, df_lookup_inv]
    norm_num [c5row, efDiv, efMulQ, efReplaceInf, efRound2, round2, roundHalfEven]
  · rw [hdf, df_lookup_ap]
    norm_num [c5row, efDiv, efMulQ, efReplaceInf, efRound2, round2, roundHalfEven]

/--
Claim C1 (amended): in the scalar engine every guarded ratio metric whose
denominator is exactly 0 or negative resolves to exactly 0.0 — each
denominator guard listed with the metrics it controls.  (The vectorized
batch path violates the original claim: it only replaces ±infinity by 0,
so a negative denominator yields the ordinary quotient, see the
counterexample.)
-/
theorem C1_zero_guard_scalar (fd : FinancialData) (prev : Option FinancialData) :
    (fd.revenue ≤ 0 →
      List.lookup "gross_margin_percent" (calculate_analytics fd prev) = some 0 ∧
      List.lookup "operating_profit_percent" (calculate_analytics fd prev) = some 0 ∧
      List.lookup "net_profit_percent" (calculate_analytics fd prev) = some 0 ∧
      List.lookup "ebitda_percent" (calculate_analytics fd prev) = some 0 ∧
      List.lookup "accounts_receivable_days" (calculate_analytics fd prev) = some 0 ∧
      List.lookup "working_capital_per_100" (calculate_analytics fd prev) = some 0) ∧
    (fd.interest_paid ≤ 0 →
      List.lookup "interest_coverage" (calculate_analytics fd prev) = some 0) ∧
    (fd.cost_of_goods ≤ 0 →
      List.lookup "inventory_days" (calculate_analytics fd prev) = some 0 ∧
      List.lookup "accounts_payable_days" (calculate_analytics fd prev) = some 0) ∧
    (fd.current_liabilities ≤ 0 →
      List.lookup "current_ratio" (calculate_analytics fd prev) = some 0) ∧
    (fd.total_capital ≤ 0 →
      List.lookup "return_on_capital" (calculate_analytics fd prev) = some 0) ∧
    (fd.total_assets ≤ 0 →
      List.lookup "asset_turnover" (calculate_analytics fd prev) = some 0 ∧
      List.lookup "return_on_assets" (calculate_analytics fd prev) = some 0 ∧
      List.lookup "equity_ratio" (calculate_analytics fd prev) = some 0) ∧
    (fd.equity ≤ 0 →
      List.lookup "return_on_equity" (calculate_analytics fd prev) = some 0 ∧
      List.lookup "debt_to_equity" (calculate_analytics fd prev) = some 0) ∧
    (fd.fixed_assets ≤ 0 →
      List.lookup "fixed_assets_turnover" (calculate_analytics fd prev) = some 0) ∧
    (fd.total_capital_debt ≤ 0 →
      List.lookup "debt_to_capital" (calculate_analytics fd prev) = some 0) := by
  refine ⟨?_, ?_, ?_, ?_, ?_, ?_, ?_, ?_, ?_⟩
  · intro h
    have h6 := not_lt.mpr h
    refine ⟨?_, ?_, ?_, ?_, ?_, ?_⟩
    · rw [lookup_gmp, if_neg h6, round2_zero]
    · rw [lookup_opp, if_neg h6, round2_zero]
    · rw [lookup_npp, if_neg h6, round2_zero]
    · rw [lookup_ebitda, if_neg h6, round2_zero]
    · rw [lookup_ar, if_neg h6, round2_zero]
    · rw [lookup_wcp, if_neg h6, round2_zero]
  · intro h
    rw [lookup_ic, if_neg (not_lt.mpr h), round2_zero]
  · intro h
    have hc := not_lt.mpr h
    constructor
    · rw [lookup_inv, if_neg hc, round2_zero]
    · rw [lookup_ap, if_neg hc, round2_zero]
  · intro h
    rw [lookup_cr, if_neg (not_lt.mpr h), round2_zero]
  · intro h
    have hr : ¬ (fd.cash + fd.accounts_receivable + fd.inventory - fd.current_liabilities +
        fd.fixed_assets > 0) := by
      simp only [FinancialData.total_capital, FinancialData.working_capital,
        FinancialData.current_assets] at h
      exact not_lt.mpr h
    rw [lookup_roc, if_neg hr, round2_zero]
  · intro h
    have ha : ¬ (fd.cash + fd.accounts_receivable + fd.inventory + fd.fixed_assets > 0) := by
      simp only [FinancialData.total_assets, FinancialData.current_assets] at h
      exact not_lt.mpr h
    refine ⟨?_, ?_, ?_⟩
    · rw [lookup_at, if_neg ha, round2_zero]
    · rw [lookup_roa, if_neg ha, round2_zero]
    · rw [lookup_er, if_neg ha, round2_zero]
  · intro h
    have he : ¬ (fd.cash + fd.accounts_receivable + fd.inventory + fd.fixed_assets -
        (fd.current_liabilities + fd.noncurrent_liabilities) > 0) := by
      simp only [FinancialData.equity, FinancialData.total_assets,
        FinancialData.current_assets, FinancialData.total_liabilities] at h
      exact not_lt.mpr h
    constructor
    · rw [lookup_roe, if_neg he, round2_zero]
    · rw [lookup_dte, if_neg he, round2_zero]
  · intro h
    rw [lookup_fat, if_neg (not_lt.mpr h), round2_zero]
  · intro h
    have hd : ¬ (fd.cash + fd.accounts_receivable + fd.inventory + fd.fixed_assets -
        (fd.current_liabilities + fd.noncurrent_liabilities) +
        (fd.current_liabilities + fd.noncurrent_liabilities) > 0) := by
      simp only [FinancialData.total_capital_debt, FinancialData.equity,
        FinancialData.total_assets, FinancialData.current_assets,
        FinancialData.total_liabilities] at h
      exact not_lt.mpr h
    rw [lookup_dtc, if_neg hd, round2_zero]

/-- Witness for C1 at a concrete input with a zero interest denominator. -/
theorem C1_witness :
    List.lookup "interest_coverage" (calculate_analytics { revenue := 100 } none) = some 0 :=
  (C1_zero_guard_scalar { revenue := 100 } none).2.1 (by norm_num)

def c1row : FinancialData :=
  { period := "2023", revenue := 100, cost_of_goods := 50, fixed_assets := 100,
    noncurrent_liabilities := 200 }

/--
Counterexample to C1 as stated: with negative equity (a negative guarded
denominator) the vectorized batch path returns `debt_to_equity = -2.0`
(the ordinary quotient 200 / (-100)), where the scalar path returns 0.0.
-/
theorem C1_counterexample :
    c1row.equity < 0 ∧
    List.lookup "debt_to_equity" ((calculate_analytics_df [c1row]).getD 0 []) =
      some (EF.q (-2)) ∧
    List.lookup "debt_to_equity" (calculate_analytics c1row none) = some 0 := by
  have hdf : (calculate_analytics_df [c1row]).getD 0 [] = dfRowMetrics none c1row := rfl
  refine ⟨?_, ?_, ?_⟩
  · norm_num [c1row, FinancialData.equity, FinancialData.total_assets,
      FinancialData.current_assets, FinancialData.total_liabilities]
  · rw [hdf, df_lookup_dte]
    norm_num [c1row, efDiv, efReplaceInf, efRound2, round2, roundHalfEven]
  · rw [lookup_dte]
    norm_num [c1row, round2_zero]

/--
Claim C2 (amended): the batch endpoint (`main.calculate_batch`) computes
each period with its immediate predecessor as previous period, so for every
3-element sequence its third metric set is exactly the scalar engine's
result on the third element with the second as previous period.  (The
vectorized `calculate_analytics_df` violates value-for-value equality with
the scalar engine, see the counterexample.)
-/
theorem C2_batch_scalar_equiv (a b c : FinancialData) :
    (calculate_batch [a, b, c]).getD 2 [] = calculate_analytics c (some b) := rfl

def c2a : FinancialData := { period := "2021", revenue := 100 }

def c2b : FinancialData := { period := "2022", revenue := 200 }

def c2c : FinancialData :=
  { period := "2023", revenue := 300, cost_of_goods := 300,
    accounts_receivable := 1, inventory := 1 }

/--
Counterexample to C2 as stated: on a chronological 3-element sequence the
vectorized path gives the third period `working_capital_days = 2.43`, while
the scalar engine on the third element with the second as previous period
gives 2.44.
-/
theorem C2_counterexample :
    List.lookup "working_capital_days" ((calculate_analytics_df [c2a, c2b, c2c]).getD 2 []) =
      some (EF.q (243/100)) ∧
    List.lookup "working_capital_days" (calculate_analytics c2c (some c2b)) =
      some (244/100) ∧
    EF.q (243/100) ≠ EF.q (244/100) := by
  have hdf : (calculate_analytics_df [c2a, c2b, c2c]).getD 2 [] =
      dfRowMetrics (some c2b.revenue) c2c := rfl
  refine ⟨?_, ?_, ?_⟩
  · rw [hdf, df_lookup_wcd]
    norm_num [c2c, efDiv, efMulQ, efAdd, efSub, efNeg, efReplaceInf, efRound2,
      round2, roundHalfEven]
  · rw [lookup_wcd]
    norm_num [c2c, round2, roundHalfEven]
  · intro hcontra
    rw [EF.q.injEq] at hcontra
    norm_num at hcontra

/--
Claim C6: the scalar engine never raises for numerically well-formed input:
with every division embedded as a fallible operation evaluated only under
its source guard, the computation always succeeds and returns exactly the
metric set of the total engine.
-/
theorem C6_never_raises (fd : FinancialData) (prev : Option FinancialData) :
    calculate_analytics_safe fd prev = some (calculate_analytics fd prev) := by
  unfold calculate_analytics_safe
  rw [safeProfitability_eq, safeWorkingCapital_eq, safeCapitalEfficiency_eq]
  rfl

lemma ite_round2_isHundredth (c : Prop) [Decidable c] (x : ℚ) :
    ∃ n : ℤ, (if c then round2 x else 0) = (n : ℚ) / 100 := by
  split_ifs with h
  · exact round2_isHundredth x
  · exact ⟨0, by norm_num⟩

lemma growth_isHundredth (fd : FinancialData) (prev : Option FinancialData) :
    ∃ n : ℤ, (match prev with
      | some p =>
        if p.revenue > 0 then round2 ((fd.revenue - p.revenue) / p.revenue * 100) else 0
      | none => (0 : ℚ)) = (n : ℚ) / 100 := by
  cases prev with
  | none => exact ⟨0, by norm_num⟩
  | some p => exact ite_round2_isHundredth _ _

/--
Claim C7: the scalar engine always returns exactly the 21 fixed metric
names as keys, in particular 21 entries, and every value is a number with
at most two decimal places (an integer multiple of 1/100).
-/
theorem C7_exactly_21_metrics (fd : FinancialData) (prev : Option FinancialData) :
    (calculate_analytics fd prev).map Prod.fst = metricNames ∧
    (calculate_analytics fd prev).length = 21 ∧
    ∀ kv ∈ calculate_analytics fd prev, ∃ n : ℤ, kv.2 = (n : ℚ) / 100 := by
  refine ⟨rfl, rfl, ?_⟩
  intro kv hkv
  simp only [calculate_analytics, List.mem_cons, List.not_mem_nil, or_false] at hkv
  rcases hkv with rfl|rfl|rfl|rfl|rfl|rfl|rfl|rfl|rfl|rfl|rfl|rfl|rfl|rfl|rfl|rfl|rfl|rfl|rfl|rfl|rfl
  · exact growth_isHundredth fd prev
  all_goals exact round2_isHundredth _

/-- Witness for C7: the growth entry of a concrete metric set is a two-decimal value. -/
theorem C7_witness :
    ∃ n : ℤ, (("revenue_growth_percent", (0 : ℚ)) : String × ℚ).2 = (n : ℚ) / 100 :=
  (C7_exactly_21_metrics { revenue := 100 } none).2.2 ("revenue_growth_percent", 0)
    (by simp [calculate_analytics])

lemma negField_eq_true (o : Option ℚ) : negField o = true ↔ ∃ v, o = some v ∧ v < 0 := by
  cases o <;> simp [negField]

/--
Claim C8 (amended): `validate_financial_data` fails exactly when `revenue`
is missing or one of the five checked fields is present and negative; on
success it returns `(True, "")`.  (As stated the claim is false: an input
with `revenue == 0` passes this validator — the strict-positivity rejection
of zero revenue lives in the pydantic `FinancialData` validator, not here —
see the counterexample.)
-/
theorem C8_validation (d : RawFinancialDict) :
    ((validate_financial_data d).1 = false ↔
      d.revenue = none ∨
      (∃ v, d.revenue = some v ∧ v < 0) ∨
      (∃ v, d.cash = some v ∧ v < 0) ∨
      (∃ v, d.accounts_receivable = some v ∧ v < 0) ∨
      (∃ v, d.inventory = some v ∧ v < 0) ∨
      (∃ v, d.fixed_assets = some v ∧ v < 0)) ∧
    ((validate_financial_data d).1 = true → validate_financial_data d = (true, "")) := by
  unfold validate_financial_data
  split_ifs with h1 h2 h3 h4 h5 h6 <;> simp_all [negField_eq_true]

/-- Witness for C8: a positive-revenue input passes validation. -/
theorem C8_witness :
    validate_financial_data { revenue := some 5 } = (true, "") :=
  (C8_validation { revenue := some 5 }).2
    (by norm_num [validate_financial_data, negField, Option.some_ne_none])

def c8data : RawFinancialDict := { revenue := some 0 }

/--
Counterexample to C8 as stated: an input whose revenue is exactly 0 (hence
`revenue ≤ 0`) is accepted by `validate_financial_data` with `(True, "")`.
-/
theorem C8_counterexample :
    validate_financial_data c8data = (true, "") ∧
    ∃ v, c8data.revenue = some v ∧ v ≤ 0 := by
  constructor
  · norm_num [validate_financial_data, negField, c8data, Option.some_ne_none]
  · exact ⟨0, rfl, le_refl 0⟩

/--
Claim C9: the scalar engine reads the previous period only through its
revenue field — two previous periods with equal revenue yield identical
metric sets whatever their other fields.
-/
theorem C9_prev_revenue_only (fd p1 p2 : FinancialData) (h : p1.revenue = p2.revenue) :
    calculate_analytics fd (some p1) = calculate_analytics fd (some p2) := by
  simp only [calculate_analytics]
  rw [h]

/-- Witness for C9: two previous periods equal in revenue, different in cash. -/
theorem C9_witness :
    calculate_analytics { revenue := 100 } (some { revenue := 50 }) =
      calculate_analytics { revenue := 100 } (some { revenue := 50, cash := 7 }) :=
  C9_prev_revenue_only { revenue := 100 } { revenue := 50 } { revenue := 50, cash := 7 } rfl

/--
Claim C10: the `BatchAnalyticsResponse` constructor overwrites
`total_periods` with the length of `periods`, whatever value the caller
supplied.
-/
theorem C10_total_periods (name : String) (ps : List AnalyticsResponse) (supplied : ℤ) :
    (mkBatchAnalyticsResponse name ps supplied).total_periods = ps.length := rfl
